import Mathlib

/-!
Shallow embedding of `src/main.py` (a Spotify → Discord webhook bridge).

The Python module polls the Spotify "currently playing" endpoint, deduplicates
on the track id, enriches a Discord embed with a dominant color and a Last.fm
scrobble count, delivers it to a webhook, and wraps everything in a retrying
main loop.  Network and JSON outcomes are modelled as explicit inputs; every
Python function of interest becomes a total Lean function on those inputs, and
exceptions become explicit result constructors.
-/

namespace SpotifyWebhook

/-- TOKEN_EXPIRY_BUFFER constant (main.py line 34): refresh the token five
minutes (300 seconds) before expiry.  Timestamps are integer seconds. -/
def TOKEN_EXPIRY_BUFFER : Int := 300

/-- MAX_RETRIES constant (main.py line 35). -/
def MAX_RETRIES : Nat := 3

/-- Outcome of the album-art fetch plus color extraction inside
`get_dominant_color` (main.py lines 95-101): the HTTP request can raise a
`requests.RequestException` (transport failure or, via `raise_for_status`, an
HTTP error), the `ColorThief` decoding can raise any other exception
(undecodable or empty image), or an RGB triple is extracted. -/
inductive ColorFetch where
  | requestError
  | decodeError
  | okColor (r g b : Nat)
deriving DecidableEq

/-- Embedding of `get_dominant_color` (main.py lines 85-109).  On success it
returns `(r <<< 16) + (g <<< 8) + b`; both `except` clauses (lines 104-109)
return the Spotify-green fallback `0x1DB954`.  The function is total: the
`except Exception` clause means no exception escapes. -/
def get_dominant_color : ColorFetch → Nat
  | .okColor r g b => (r <<< 16) + (g <<< 8) + b
  | .requestError => 0x1DB954
  | .decodeError => 0x1DB954

/-- JSON values as returned by `response.json()`. -/
inductive JsonV where
  | obj (fields : List (String × JsonV))
  | arr (elems : List JsonV)
  | str (s : String)
  | num (n : Int)
  | null

/-- Python exception classes that matter for the scrobble lookup. -/
inductive ExnKind where
  | attributeError
  | keyError
  | valueError
deriving DecidableEq

/-- Result of running a piece of Python code: a value, or a raised exception. -/
inductive PyResult (α : Type) where
  | ok (val : α)
  | exn (e : ExnKind)

/-- Python `value.get(key, default)`: on a dict (JSON object) it looks the key
up and yields the default when the key is missing; on any non-dict value the
attribute access itself raises `AttributeError`. -/
def dictGet (v : JsonV) (key : String) (dflt : JsonV) : PyResult JsonV :=
  match v with
  | .obj fields => .ok ((List.lookup key fields).getD dflt)
  | _ => .exn .attributeError

/-- Outcome of the Last.fm request inside `get_total_scrobbles` (main.py lines
120-131): a `requests.RequestException` (transport failure or non-2xx via
`raise_for_status`), a `ValueError` from `response.json()` on an undecodable
body, or a decoded JSON body. -/
inductive ScrobbleFetch where
  | requestError
  | jsonDecodeError
  | jsonBody (v : JsonV)

/-- Embedding of `get_total_scrobbles` (main.py lines 112-139).  The `except`
clauses catch `requests.RequestException` and `(KeyError, ValueError)` and
return the string fallback, but the chained
`data.get("user", \x7b\x7d).get("playcount", "0")` on line 133 raises an
uncaught `AttributeError` when the decoded body (or its `user` entry) is not a
JSON object. -/
def get_total_scrobbles : ScrobbleFetch → PyResult JsonV
  | .requestError => .ok (.str ("0"))
  | .jsonDecodeError => .ok (.str ("0"))
  | .jsonBody v =>
    match dictGet v ("user") (.obj []) with
    | .exn e => .exn e
    | .ok user =>
      match dictGet user ("playcount") (.str ("0")) with
      | .exn e => .exn e
      | .ok pc => .ok pc

/-- True when the modelled `get_total_scrobbles` call raises instead of
returning a value. -/
def scrobbleRaises (s : ScrobbleFetch) : Bool :=
  match get_total_scrobbles s with
  | .exn _ => true
  | .ok _ => false

/-- Global token state of main.py (lines 50-51): `access_token` and
`token_expiry`, both `None` until the first refresh. -/
structure TokenState where
  accessToken : Option String
  tokenExpiry : Option Int
deriving DecidableEq

/-- The staleness test of `ensure_valid_token` (main.py lines 189-191):
refresh when the token or expiry is `None`, or when
`datetime.now() >= token_expiry - timedelta(seconds=TOKEN_EXPIRY_BUFFER)`. -/
def needsRefresh (st : TokenState) (now : Int) : Bool :=
  match st.accessToken, st.tokenExpiry with
  | none, _ => true
  | _, none => true
  | some _, some expiry => decide (expiry - TOKEN_EXPIRY_BUFFER ≤ now)

/-- Embedding of `ensure_valid_token` (main.py lines 185-194) for the case
where the renewal endpoint answers successfully.  `resp` is the decoded token
response: the new `access_token` string and `expires_in` seconds (main.py
lines 170-172 set the expiry to `datetime.now() + timedelta(seconds=expires_in)`,
with 3600 as the default `expires_in`).  The returned `Nat` counts the renewal
network exchanges performed by this call (0 or 1). -/
def ensure_valid_token (st : TokenState) (now : Int) (resp : String × Int) :
    TokenState × Nat :=
  if needsRefresh st now then
    ({ accessToken := some resp.1, tokenExpiry := some (now + resp.2) }, 1)
  else (st, 0)

/-- The `item` object of a populated "currently playing" response, with each
field that `process_track` reads (main.py lines 297-308) modelled as present
(`some`) or missing/malformed (`none`, covering a missing key, a `null`, or an
empty image list — the `KeyError`/`IndexError` cases). -/
structure Item where
  id : Option String
  artistName : Option String
  trackName : Option String
  albumName : Option String
  albumArtUrl : Option String
  trackUrl : Option String
deriving DecidableEq

/-- A decoded "currently playing" body; `item` is `none` when the `item` key
is absent or falsy (main.py line 293). -/
structure NPData where
  item : Option Item
deriving DecidableEq

/-- The five embed fields extracted inside the `try` block of `process_track`
(main.py lines 304-308). -/
structure TrackFields where
  artistName : String
  trackName : String
  albumName : String
  albumArtUrl : String
  trackUrl : String
deriving DecidableEq

/-- Extraction of the five embed fields (main.py lines 304-308); `none` means
one of the accesses raised `KeyError` or `IndexError`. -/
def parseTrackFields (it : Item) : Option TrackFields :=
  match it.artistName, it.trackName, it.albumName, it.albumArtUrl, it.trackUrl with
  | some a, some t, some al, some art, some u => some ⟨a, t, al, art, u⟩
  | _, _, _, _, _ => none

/-- Python truthiness of the optional track id (`if not track_id`, main.py
line 299): `None` and the empty string are falsy. -/
def idTruthy : Option String → Bool
  | none => false
  | some s => !s.isEmpty

/-- How one `process_track` call ends. `skipped` covers the early returns
(no data, no item, falsy id, or id equal to the dedupe state); `parseFailed`
is the `(KeyError, IndexError)` clause (main.py line 340); `enrichFailed` is
the `except Exception` clause (line 342, reached e.g. when the scrobble lookup
raises `AttributeError`); `sendFailed` and `notified` are the two outcomes of
the webhook delivery (lines 336-338). -/
inductive CycleResult where
  | skipped
  | parseFailed
  | enrichFailed
  | sendFailed
  | notified
deriving DecidableEq

/-- Embedding of `process_track` (main.py lines 284-343) together with
`send_discord_webhook` (lines 261-281), whose network outcome enters as the
boolean `deliveryOk` (it returns `True` exactly on a 2xx response and `False`
on any `requests.RequestException`).  `last` is the global `last_track_id`;
the returned option is its new value.  The user profile is assumed fetched
(`main` fetches it before the first `process_track` call). -/
def process_track (data : Option NPData) (color : ColorFetch) (scrobble : ScrobbleFetch)
    (deliveryOk : Bool) (last : Option String) : CycleResult × Option String :=
  match data with
  | none => (.skipped, last)
  | some d =>
    match d.item with
    | none => (.skipped, last)
    | some item =>
      if !idTruthy item.id then (.skipped, last)
      else if item.id = last then (.skipped, last)
      else
        match parseTrackFields item with
        | none => (.parseFailed, last)
        | some _fields =>
          let _embedColor := get_dominant_color color
          match get_total_scrobbles scrobble with
          | .exn _ => (.enrichFailed, last)
          | .ok _count =>
            if deliveryOk then (.notified, item.id) else (.sendFailed, last)

/-- The item of a "currently playing" body, if any. -/
def dataItem (d : Option NPData) : Option Item :=
  d.bind (fun x => x.item)

/-- The track id reported by a "currently playing" body, if any. -/
def itemIdOf (d : Option NPData) : Option String :=
  (dataItem d).bind (fun it => it.id)

/-- State of the main loop (main.py lines 361-363): the consecutive-failure
counter `retry_count` and the dedupe state `last_track_id`. -/
structure LoopState where
  retryCount : Nat
  lastTrackId : Option String
deriving DecidableEq

/-- What one iteration of the `while running` body amounts to, seen from the
`try`/`except` structure (main.py lines 364-393): the remote calls raise a
`requests.RequestException` (`raiseUpstream`), raise some other exception
(`raiseOther`), or all succeed and `process_track` runs on the fetched data
(`normal`). -/
inductive CycleInput where
  | raiseUpstream
  | raiseOther
  | normal (data : Option NPData) (color : ColorFetch) (scrobble : ScrobbleFetch)
      (deliveryOk : Bool)

/-- One iteration of the main loop (main.py lines 363-393).  A
`requests.RequestException` increments `retry_count` and the loop breaks when
it reaches `MAX_RETRIES` (lines 381-387); any other exception is logged and
the loop continues with `retry_count` untouched (lines 391-393); a completed
cycle runs `process_track` and resets `retry_count = 0` (lines 372-375).  The
boolean is true when this iteration ends the loop via `break`. -/
def mainStep (st : LoopState) (i : CycleInput) : LoopState × Bool :=
  match i with
  | .raiseUpstream =>
    ({ st with retryCount := st.retryCount + 1 },
     decide (MAX_RETRIES ≤ st.retryCount + 1))
  | .raiseOther => (st, false)
  | .normal data color scrobble deliveryOk =>
    ({ retryCount := 0,
       lastTrackId := (process_track data color scrobble deliveryOk st.lastTrackId).2 },
     false)

/-- Run the main loop over a finite schedule of cycle inputs; the boolean is
true when the loop terminated fatally (via the `MAX_RETRIES` break). -/
def runLoop : List CycleInput → LoopState → LoopState × Bool
  | [], st => (st, false)
  | i :: rest, st =>
    let step := mainStep st i
    if step.2 then (step.1, true) else runLoop rest step.1

/-- A cycle that completed (did not raise out of the `try` body). -/
def isSuccess : CycleInput → Bool
  | .normal _ _ _ _ => true
  | _ => false

/-- A cycle that raised a `requests.RequestException`. -/
def isUpstream : CycleInput → Bool
  | .raiseUpstream => true
  | _ => false

/-- Number of `UpstreamError` cycles in a schedule segment. -/
def upstreamCount (l : List CycleInput) : Nat :=
  (l.filter isUpstream).length

/-- The six environment variables `validate_config` requires (main.py lines
60-67). -/
def requiredVars : List String :=
  ["DISCORD_WEBHOOK_URL", "SPOTIFY_CLIENT_ID", "SPOTIFY_CLIENT_SECRET",
   "SPOTIFY_REFRESH_TOKEN", "LASTFM_API_KEY", "LASTFM_USERNAME"]

/-- Python falsiness of `os.getenv(var)` (main.py line 69): unset or empty. -/
def envFalsy (env : String → Option String) (v : String) : Bool :=
  match env v with
  | none => true
  | some s => s.isEmpty

/-- Embedding of `validate_config` (main.py lines 58-74): `some code` when the
process exits (`sys.exit(1)` on any missing variable), `none` when it
returns. -/
def validate_config (env : String → Option String) : Option Nat :=
  if (requiredVars.filter (envFalsy env)) ≠ [] then some 1 else none

/-- Ways the main loop stops: the interrupt handler fires (`signal_handler`,
main.py lines 77-82), or `retry_count` reaches `MAX_RETRIES` and the loop
breaks (lines 385-387). -/
inductive LoopEnd where
  | interruptSignal
  | maxRetriesReached

/-- Process exit code of `main` (main.py lines 346-397).  A failed
`validate_config` calls `sys.exit(1)`; `signal_handler` calls `sys.exit(0)`
(`SystemExit` is not caught by the `except` clauses of the loop); exhausting
`MAX_RETRIES` executes `break`, after which `main` returns normally and the
interpreter exits with code 0. -/
def mainExit (env : String → Option String) (e : LoopEnd) : Nat :=
  match validate_config env with
  | some code => code
  | none =>
    match e with
    | .interruptSignal => 0
    | .maxRetriesReached => 0

/-- An environment with every variable set to a non-empty value. -/
def fullEnv : String → Option String := fun _ => some ("set")

/-- An environment with no variable set. -/
def emptyEnv : String → Option String := fun _ => none


/-- A fully populated "currently playing" item with id "t1". -/
def goodItem : Item :=
  { id := some ("t1"), artistName := some ("Artist"), trackName := some ("Song"),
    albumName := some ("Album"), albumArtUrl := some ("http://img"), trackUrl := some ("http://track") }

/-- A populated response reporting `goodItem`. -/
def goodData : Option NPData := some ⟨some goodItem⟩

/-- An item with a present, new id "t1" but a missing artists list, so the
field extraction raises `KeyError`/`IndexError`. -/
def malformedItem : Item :=
  { id := some ("t1"), artistName := none, trackName := some ("Song"),
    albumName := some ("Album"), albumArtUrl := some ("http://img"), trackUrl := some ("http://track") }

/-- A populated response reporting `malformedItem`. -/
def malformedData : Option NPData := some ⟨some malformedItem⟩

/-- Helper: `upstreamCount` over a cons. -/
lemma upstreamCount_cons (i : CycleInput) (l : List CycleInput) :
    upstreamCount (i :: l) = (if isUpstream i then 1 else 0) + upstreamCount l := by
  by_cases h : isUpstream i
  · simp [upstreamCount, List.filter_cons, h]
    omega
  · simp [upstreamCount, List.filter_cons, h]

/-- Helper: three upstream failures in a row always end the loop fatally. -/
lemma three_upstream_fatal (r : List CycleInput) (st : LoopState) :
    (runLoop (.raiseUpstream :: .raiseUpstream :: .raiseUpstream :: r) st).2 = true := by
  simp only [runLoop, mainStep]
  split_ifs with h1 h2 h3
  · rfl
  · rfl
  · rfl
  · exfalso
    simp only [decide_eq_true_eq, MAX_RETRIES] at h1 h2 h3
    omega

/-- Helper: a schedule containing three adjacent upstream failures ends
fatally, wherever they occur. -/
lemma fatal_after_three (p r : List CycleInput) (st : LoopState) :
    (runLoop (p ++ .raiseUpstream :: .raiseUpstream :: .raiseUpstream :: r) st).2 = true := by
  induction p generalizing st with
  | nil => simpa using three_upstream_fatal r st
  | cons i p ih =>
    simp only [List.cons_append, runLoop]
    by_cases h : (mainStep st i).2
    · simp [h]
    · simp [h, ih]

/-- Helper: a fatal run contains a success-free segment with at least
`MAX_RETRIES` upstream failures (relative to the incoming counter when the
segment starts the schedule). -/
lemma fatal_segment (os : List CycleInput) (st : LoopState)
    (h : (runLoop os st).2 = true) :
    (∃ q r, os = q ++ r ∧ (∀ i ∈ q, isSuccess i = false) ∧
      MAX_RETRIES ≤ st.retryCount + upstreamCount q) ∨
    (∃ p q r, os = p ++ q ++ r ∧ (∀ i ∈ q, isSuccess i = false) ∧
      MAX_RETRIES ≤ upstreamCount q) := by
  induction os generalizing st with
  | nil => simp [runLoop] at h
  | cons i rest ih =>
    cases i with
    | raiseUpstream =>
      by_cases hf : MAX_RETRIES ≤ st.retryCount + 1
      · left
        refine ⟨[.raiseUpstream], rest, rfl, ?_, ?_⟩
        · intro j hj; rw [List.mem_singleton] at hj; subst hj; rfl
        · simpa [upstreamCount, isUpstream, List.filter] using hf
      · have h' : (runLoop rest ({ st with retryCount := st.retryCount + 1 })).2 = true := by
          simp only [runLoop, mainStep] at h
          simpa [hf] using h
        rcases ih _ h' with ⟨q, r, hqr, hnos, hcnt⟩ | ⟨p, q, r, hpqr, hnos, hcnt⟩
        · left
          refine ⟨.raiseUpstream :: q, r, by simp [hqr], ?_, ?_⟩
          · intro j hj
            rcases List.mem_cons.1 hj with hj | hj
            · subst hj; rfl
            · exact hnos j hj
          · rw [upstreamCount_cons]
            simp only at hcnt
            simp [isUpstream]
            omega
        · right
          exact ⟨.raiseUpstream :: p, q, r, by simp [hpqr], hnos, hcnt⟩
    | raiseOther =>
      have h' : (runLoop rest st).2 = true := by
        simp only [runLoop, mainStep] at h
        simpa using h
      rcases ih _ h' with ⟨q, r, hqr, hnos, hcnt⟩ | ⟨p, q, r, hpqr, hnos, hcnt⟩
      · left
        refine ⟨.raiseOther :: q, r, by simp [hqr], ?_, ?_⟩
        · intro j hj
          rcases List.mem_cons.1 hj with hj | hj
          · subst hj; rfl
          · exact hnos j hj
        · rw [upstreamCount_cons]
          simp [isUpstream]
          omega
      · right
        exact ⟨.raiseOther :: p, q, r, by simp [hpqr], hnos, hcnt⟩
    | normal d c s ok =>
      have h' : (runLoop rest ⟨0, (process_track d c s ok st.lastTrackId).2⟩).2 = true := by
        simp only [runLoop, mainStep] at h
        simpa using h
      rcases ih _ h' with ⟨q, r, hqr, hnos, hcnt⟩ | ⟨p, q, r, hpqr, hnos, hcnt⟩
      · right
        refine ⟨[.normal d c s ok], q, r, by simp [hqr], hnos, ?_⟩
        simpa using hcnt
      · right
        exact ⟨.normal d c s ok :: p, q, r, by simp [hpqr], hnos, hcnt⟩

/-- C3 test theorem. -/
theorem c3_renewal_iff_stale :
    ∀ (st : TokenState) (now : Int) (resp : String × Int),
      ((ensure_valid_token st now resp).2 = 1 ↔
        (st.accessToken = none ∨ st.tokenExpiry = none ∨
          ∃ e, st.tokenExpiry = some e ∧ e - TOKEN_EXPIRY_BUFFER ≤ now)) ∧
      (∀ tok e, st.accessToken = some tok → st.tokenExpiry = some e →
        now < e - TOKEN_EXPIRY_BUFFER → (ensure_valid_token st now resp).2 = 0) := by
  intro st now resp
  obtain ⟨a, e⟩ := st
  constructor
  · rcases a with _ | tok
    · simp [ensure_valid_token, needsRefresh]
    · rcases e with _ | exp
      · simp [ensure_valid_token, needsRefresh]
      · by_cases hP : exp - TOKEN_EXPIRY_BUFFER ≤ now
        · simp [ensure_valid_token, needsRefresh, hP]
          omega
        · simp [ensure_valid_token, needsRefresh, hP]
          omega
  · intro tok ex ha he hlt
    simp only at ha he
    subst ha; subst he
    have hP : ¬ (ex - TOKEN_EXPIRY_BUFFER ≤ now) := by omega
    simp [ensure_valid_token, needsRefresh, hP]

/-- C4 amended test theorem. -/
theorem c4_expiry_buffer_amended :
    ∀ (st : TokenState) (now : Int) (resp : String × Int),
      ((ensure_valid_token st now resp).2 = 0 →
        ∃ e, (ensure_valid_token st now resp).1.tokenExpiry = some e ∧
          now + TOKEN_EXPIRY_BUFFER < e) ∧
      ((ensure_valid_token st now resp).2 = 1 →
        (ensure_valid_token st now resp).1.tokenExpiry = some (now + resp.2) ∧
        (TOKEN_EXPIRY_BUFFER < resp.2 → now + TOKEN_EXPIRY_BUFFER < now + resp.2)) := by
  intro st now resp
  constructor
  · intro h0
    obtain ⟨a, e⟩ := st
    rcases a with _ | tok
    · simp [ensure_valid_token, needsRefresh] at h0
    · rcases e with _ | exp
      · simp [ensure_valid_token, needsRefresh] at h0
      · by_cases hP : exp - TOKEN_EXPIRY_BUFFER ≤ now
        · simp [ensure_valid_token, needsRefresh, hP] at h0
        · exact ⟨exp, by simp [ensure_valid_token, needsRefresh, hP], by omega⟩
  · intro h1
    by_cases hR : needsRefresh st now = true
    · refine ⟨by simp [ensure_valid_token, hR], fun hbuf => by omega⟩
    · simp [ensure_valid_token, hR] at h1


/-- Helper: a populated body with item `it` is exactly `some ⟨some it⟩`. -/
lemma dataItem_inv (data : Option NPData) (it : Item) (h : dataItem data = some it) :
    data = some ⟨some it⟩ := by
  cases data with
  | none => simp [dataItem] at h
  | some d =>
    cases d with
    | mk i =>
      simp [dataItem] at h
      subst h
      rfl

/-- Helper: unfolding of `process_track` with the enrichment call abstracted
by `scrobbleRaises`. -/
lemma process_track_eq (data : Option NPData) (color : ColorFetch)
    (scrobble : ScrobbleFetch) (ok : Bool) (last : Option String) :
    process_track data color scrobble ok last =
      match dataItem data with
      | none => (.skipped, last)
      | some item =>
        if !idTruthy item.id then (.skipped, last)
        else if item.id = last then (.skipped, last)
        else
          match parseTrackFields item with
          | none => (.parseFailed, last)
          | some _ =>
            if scrobbleRaises scrobble then (.enrichFailed, last)
            else if ok then (.notified, item.id) else (.sendFailed, last) := by
  rcases data with _ | ⟨_ | it⟩
  · rfl
  · rfl
  · simp only [process_track, dataItem, Option.some_bind]
    rcases hs : get_total_scrobbles scrobble with ⟨v⟩ | ⟨e⟩ <;>
      simp [scrobbleRaises, hs]

/-- Helper: when a cycle reports `notified`, the dedupe state becomes the
reported id, and that id is truthy. -/
lemma notified_inv (data : Option NPData) (color : ColorFetch)
    (scrobble : ScrobbleFetch) (ok : Bool) (last : Option String)
    (h : (process_track data color scrobble ok last).1 = .notified) :
    (process_track data color scrobble ok last).2 = itemIdOf data ∧
    idTruthy (itemIdOf data) = true := by
  rw [process_track_eq] at h ⊢
  rcases hd : dataItem data with _ | it
  · simp [hd] at h
  · simp only [hd] at h ⊢
    by_cases h1 : idTruthy it.id
    · by_cases h2 : it.id = last
      · simp [h1, h2] at h
      · rcases hp : parseTrackFields it with _ | f
        · simp [h1, h2, hp] at h
        · by_cases hsr : scrobbleRaises scrobble
          · simp [h1, h2, hp, hsr] at h
          · rcases ok with _ | _
            · simp [h1, h2, hp, hsr] at h
            · rw [dataItem_inv data it hd]
              simp [h1, h2, hp, hsr, itemIdOf, dataItem]
    · simp [h1] at h

/-- Helper: a cycle whose reported id is truthy and equal to the dedupe state
is skipped. -/
lemma skip_when_same (data : Option NPData) (color : ColorFetch)
    (scrobble : ScrobbleFetch) (ok : Bool) (last : Option String) (it : Item)
    (hd : dataItem data = some it) (hid : it.id = last) (_ht : idTruthy it.id = true) :
    (process_track data color scrobble ok last).1 = .skipped := by
  rw [process_track_eq]
  simp [hd, hid]


/-- C1 (counterexample): a populated response whose new, truthy id "t1"
differs from the dedupe state (`none`) and whose delivery would succeed still
emits nothing when the embed fields are malformed, so "notification emitted
iff the identity is present and differs from the last-notified identity" fails
in the if direction. -/
theorem c1_counterexample :
    itemIdOf malformedData = some ("t1") ∧
    idTruthy (some ("t1")) = true ∧
    (some ("t1") : Option String) ≠ none ∧
    (process_track malformedData .requestError .requestError true none).1 ≠ .notified ∧
    (process_track malformedData .requestError .requestError true none).1 ≠ .sendFailed := by
  decide

/-- C1 (amended): a notification is delivered in a cycle iff the reported
track identity is present (truthy), differs from the last-notified identity,
the embed fields parse, the scrobble lookup does not raise, and the webhook
delivery succeeds; and a cycle that reports the identity just notified is
always skipped, so the same identity in consecutive cycles never produces a
second notification. -/
theorem c1_notification_iff :
    ∀ (data : Option NPData) (color : ColorFetch) (scrobble : ScrobbleFetch)
      (ok : Bool) (last : Option String),
      ((process_track data color scrobble ok last).1 = .notified ↔
        (∃ it, dataItem data = some it ∧ idTruthy it.id = true ∧ it.id ≠ last ∧
          (parseTrackFields it).isSome = true ∧ scrobbleRaises scrobble = false ∧
          ok = true)) ∧
      (∀ (data2 : Option NPData) (color2 : ColorFetch) (scrobble2 : ScrobbleFetch)
        (ok2 : Bool),
        (process_track data color scrobble ok last).1 = .notified →
        itemIdOf data2 = itemIdOf data →
        (process_track data2 color2 scrobble2 ok2
          (process_track data color scrobble ok last).2).1 = .skipped) := by
  intro data color scrobble ok last
  constructor
  · rw [process_track_eq]
    rcases hd : dataItem data with _ | it
    · simp [hd]
    · by_cases h1 : idTruthy it.id
      · by_cases h2 : it.id = last
        · simp [hd, h1, h2]
        · rcases hp : parseTrackFields it with _ | f
          · simp [hd, h1, h2, hp]
          · by_cases hsr : scrobbleRaises scrobble
            · simp [hd, h1, h2, hp, hsr]
            · rcases ok with _ | _
              · simp [hd, h1, h2, hp, hsr]
              · simp [hd, h1, h2, hp, hsr]
      · simp [hd, h1]
  · intro data2 color2 scrobble2 ok2 h hid
    obtain ⟨hlast, htruthy⟩ := notified_inv data color scrobble ok last h
    rw [hlast]
    rw [← hid] at htruthy ⊢
    rcases hd2 : dataItem data2 with _ | it2
    · simp [itemIdOf, hd2, idTruthy] at htruthy
    · have hid2 : it2.id = itemIdOf data2 := by simp [itemIdOf, hd2]
      exact skip_when_same data2 color2 scrobble2 ok2 (itemIdOf data2) it2 hd2 hid2
        (by rw [hid2]; exact htruthy)

/-- C1 (witness): with a fully populated track "t1", delivery succeeds in the
first cycle and a second cycle reporting the same track is skipped. -/
theorem c1_witness :
    (process_track goodData .requestError .requestError true none).1 = .notified ∧
    (process_track goodData .requestError .requestError true
      (process_track goodData .requestError .requestError true none).2).1 = .skipped :=
  ⟨by decide,
   (c1_notification_iff goodData .requestError .requestError true none).2
     goodData .requestError .requestError true (by decide) rfl⟩

/-- Helper: the dedupe state is unchanged except by a `notified` cycle, which
sets it to the reported id and requires a successful delivery. -/
lemma process_track_snd (data : Option NPData) (color : ColorFetch)
    (scrobble : ScrobbleFetch) (ok : Bool) (last : Option String) :
    (process_track data color scrobble ok last).2 = last ∨
    ((process_track data color scrobble ok last).1 = .notified ∧ ok = true ∧
      (process_track data color scrobble ok last).2 = itemIdOf data) := by
  rw [process_track_eq]
  rcases hd : dataItem data with _ | it
  · left; rfl
  · by_cases h1 : idTruthy it.id
    · by_cases h2 : it.id = last
      · left; simp [h1, h2]
      · rcases hp : parseTrackFields it with _ | f
        · left; simp [h1, h2, hp]
        · by_cases hsr : scrobbleRaises scrobble
          · left; simp [h1, h2, hp, hsr]
          · rcases ok with _ | _
            · left; simp [h1, h2, hp, hsr]
            · right
              refine ⟨by simp [h1, h2, hp, hsr], rfl, ?_⟩
              simp [h1, h2, hp, hsr, itemIdOf, hd]
    · left; simp [h1]

/-- C2: a failed webhook delivery leaves the dedupe state unchanged, a later
cycle still reporting the same data attempts (and with a working webhook
completes) delivery again, and the dedupe state changes only in a cycle whose
delivery reported success. -/
theorem c2_delivery_failure_preserves_dedupe :
    ∀ (data : Option NPData) (color : ColorFetch) (scrobble : ScrobbleFetch)
      (last : Option String) (ok : Bool),
      ((process_track data color scrobble false last).2 = last) ∧
      ((process_track data color scrobble false last).1 = .sendFailed →
        (process_track data color scrobble true last).1 = .notified) ∧
      ((process_track data color scrobble ok last).2 ≠ last →
        ok = true ∧ (process_track data color scrobble ok last).1 = .notified) := by
  intro data color scrobble last ok
  refine ⟨?_, ?_, ?_⟩
  · rcases process_track_snd data color scrobble false last with h | ⟨_, hok, _⟩
    · exact h
    · exact absurd hok (by simp)
  · rw [process_track_eq, process_track_eq]
    rcases hd : dataItem data with _ | it
    · intro h; exact absurd h (by simp)
    · by_cases h1 : idTruthy it.id
      · by_cases h2 : it.id = last
        · simp [h1, h2]
        · rcases hp : parseTrackFields it with _ | f
          · simp [h1, h2, hp]
          · by_cases hsr : scrobbleRaises scrobble
            · simp [h1, h2, hp, hsr]
            · simp [h1, h2, hp, hsr]
      · simp [h1]
  · intro hne
    rcases process_track_snd data color scrobble ok last with h | ⟨hn, hok, _⟩
    · exact absurd h hne
    · exact ⟨hok, hn⟩

/-- C2 (witness): for the fully populated track "t1" with dedupe state `none`,
a failed delivery reports `sendFailed` and the retried cycle delivers. -/
theorem c2_witness :
    (process_track goodData .requestError .requestError false none).2 = none ∧
    (process_track goodData .requestError .requestError false none).1 = .sendFailed ∧
    (process_track goodData .requestError .requestError true none).1 = .notified :=
  ⟨(c2_delivery_failure_preserves_dedupe goodData .requestError .requestError none false).1,
   by decide,
   (c2_delivery_failure_preserves_dedupe goodData .requestError .requestError none false).2.1
     (by decide)⟩



/-- C5 (code bug): both enrichment lookups fall back on transport/HTTP errors
and on an undecodable body, and `get_dominant_color` also on a decode failure;
but `get_total_scrobbles` on a 2xx response whose JSON body is not an object
(here the empty array) raises an `AttributeError` that none of its `except`
clauses catch, so the failure propagates to the caller instead of returning
the string "0". -/
theorem c5_enrichment_fallback_and_uncaught_exn :
    get_dominant_color .requestError = 0x1DB954 ∧
    get_dominant_color .decodeError = 0x1DB954 ∧
    get_dominant_color (.okColor 1 2 3) = (1 <<< 16) + (2 <<< 8) + 3 ∧
    get_total_scrobbles .requestError = .ok (.str ("0")) ∧
    get_total_scrobbles .jsonDecodeError = .ok (.str ("0")) ∧
    get_total_scrobbles (.jsonBody (.obj [])) = .ok (.str ("0")) ∧
    get_total_scrobbles (.jsonBody (.arr [])) = .exn .attributeError :=
  ⟨rfl, rfl, rfl, rfl, rfl, rfl, rfl⟩

/-- C6: three consecutive upstream-failure cycles anywhere in a schedule end
the loop fatally; every completed cycle resets the consecutive-failure counter
to zero; and a loop started with a zero counter never ends fatally without a
run of consecutive non-completing cycles containing at least `MAX_RETRIES`
upstream failures. -/
theorem c6_three_consecutive_upstream_fatal :
    (∀ (p r : List CycleInput) (st : LoopState),
      (runLoop (p ++ .raiseUpstream :: .raiseUpstream :: .raiseUpstream :: r) st).2 = true) ∧
    (∀ (st : LoopState) (d : Option NPData) (c : ColorFetch) (s : ScrobbleFetch) (ok : Bool),
      (mainStep st (.normal d c s ok)).1.retryCount = 0 ∧
      (mainStep st (.normal d c s ok)).2 = false) ∧
    (∀ (os : List CycleInput) (st : LoopState), st.retryCount = 0 →
      (runLoop os st).2 = true →
      ∃ p q r, os = p ++ q ++ r ∧ (∀ i ∈ q, isSuccess i = false) ∧
        MAX_RETRIES ≤ upstreamCount q) := by
  refine ⟨fatal_after_three, fun st d c s ok => ⟨rfl, rfl⟩, ?_⟩
  intro os st h0 hfatal
  rcases fatal_segment os st hfatal with ⟨q, r, hqr, hnos, hcnt⟩ | hres
  · exact ⟨[], q, r, by simpa using hqr, hnos, by omega⟩
  · exact hres

/-- C6 (witness): the concrete schedule of three upstream failures from a
fresh state ends fatally and contains the required failure segment. -/
theorem c6_witness :
    (runLoop [.raiseUpstream, .raiseUpstream, .raiseUpstream] ⟨0, none⟩).2 = true ∧
    ∃ p q r,
      ([.raiseUpstream, .raiseUpstream, .raiseUpstream] : List CycleInput) = p ++ q ++ r ∧
      (∀ i ∈ q, isSuccess i = false) ∧ MAX_RETRIES ≤ upstreamCount q :=
  ⟨by decide,
   c6_three_consecutive_upstream_fatal.2.2
     [.raiseUpstream, .raiseUpstream, .raiseUpstream] ⟨0, none⟩ rfl (by decide)⟩

/-- C7 (counterexample): three consecutive cycles raising a
non-`RequestException` error leave the failure counter at 0 and do not end the
loop, falsifying "such errors count toward the failure maximum of 3": the
`except Exception` clause of `main` never increments `retry_count`. -/
theorem c7_counterexample :
    runLoop [.raiseOther, .raiseOther, .raiseOther] ⟨0, none⟩ = (⟨0, none⟩, false) ∧
    (mainStep ⟨0, none⟩ .raiseOther).1.retryCount ≠ 0 + 1 := by
  decide

/-- C7 (amended): a cycle raising any error class other than a
`requests.RequestException` is absorbed without ending the loop and leaves the
consecutive-failure counter (and all loop state) unchanged, so such errors
never count toward the failure maximum and alone never terminate the loop. -/
theorem c7_other_errors_not_counted :
    ∀ (st : LoopState),
      mainStep st .raiseOther = (st, false) ∧
      ∀ (os : List CycleInput), (∀ i ∈ os, i = .raiseOther) →
        runLoop os st = (st, false) := by
  intro st
  refine ⟨rfl, ?_⟩
  intro os
  induction os with
  | nil => intro _; rfl
  | cons i rest ih =>
    intro h
    have hi : i = .raiseOther := h i (List.mem_cons_self i rest)
    subst hi
    have hrest : ∀ j ∈ rest, j = .raiseOther := fun j hj => h j (List.mem_cons_of_mem _ hj)
    simpa [runLoop, mainStep] using ih hrest

/-- C7 (witness): a schedule of two non-upstream errors from counter 2 leaves
the state untouched and the loop alive. -/
theorem c7_witness :
    runLoop [.raiseOther, .raiseOther] ⟨2, some ("t1")⟩ = (⟨2, some ("t1")⟩, false) :=
  (c7_other_errors_not_counted ⟨2, some ("t1")⟩).2 [.raiseOther, .raiseOther]
    (by intro i hi; rcases List.mem_cons.1 hi with h | h; · exact h;
        · rw [List.mem_singleton] at h; exact h)

/-- C8 (counterexample): with every required variable set, exhausting the
retry maximum makes `main` break out of the loop and return normally, so the
process exits with code 0 — not the non-zero exit the claim requires. -/
theorem c8_counterexample :
    validate_config fullEnv = none ∧ mainExit fullEnv .maxRetriesReached = 0 := by
  decide

/-- C8 (amended): the process exits with code 0 on an interrupt signal, with
code 1 when a required configuration variable is unset or empty, and with
code 0 (a normal return after `break`) when the retry maximum is exhausted. -/
theorem c8_exit_codes_amended :
    ∀ (env : String → Option String) (e : LoopEnd),
      (validate_config env = none → mainExit env .interruptSignal = 0) ∧
      ((∃ v ∈ requiredVars, envFalsy env v = true) → mainExit env e = 1) ∧
      (validate_config env = none → mainExit env .maxRetriesReached = 0) := by
  intro env e
  refine ⟨fun h => by simp [mainExit, h], ?_, fun h => by simp [mainExit, h]⟩
  intro h
  obtain ⟨v, hv, hfv⟩ := h
  have hne : requiredVars.filter (envFalsy env) ≠ [] := by
    intro hnil
    have := List.filter_eq_nil_iff.1 hnil v hv
    simp [hfv] at this
  have hvc : validate_config env = some 1 := by simp [validate_config, hne]
  simp [mainExit, hvc]

/-- C8 (witness): an empty environment exits with code 1 even when the loop
would have exhausted its retries, and a complete environment exits with code 0
on interrupt. -/
theorem c8_witness :
    mainExit emptyEnv .maxRetriesReached = 1 ∧ mainExit fullEnv .interruptSignal = 0 :=
  ⟨(c8_exit_codes_amended emptyEnv .maxRetriesReached).2.1 (by decide),
   (c8_exit_codes_amended fullEnv .interruptSignal).1 (by decide)⟩

/-- C9: a populated response with a present, truthy, new track id whose embed
fields are malformed makes `process_track` return the recoverable
`parseFailed` outcome with the dedupe state unchanged, and the enclosing loop
cycle completes normally: the failure counter is reset to 0 and the loop does
not terminate, so the parse failure is not a retry-triggering failure. -/
theorem c9_parse_failure_recoverable :
    ∀ (st : LoopState) (data : Option NPData) (it : Item) (color : ColorFetch)
      (scrobble : ScrobbleFetch) (ok : Bool),
      dataItem data = some it → idTruthy it.id = true → it.id ≠ st.lastTrackId →
      parseTrackFields it = none →
      process_track data color scrobble ok st.lastTrackId = (.parseFailed, st.lastTrackId) ∧
      mainStep st (.normal data color scrobble ok) =
        (⟨0, st.lastTrackId⟩, false) := by
  intro st data it color scrobble ok hd ht hne hp
  have hpt : process_track data color scrobble ok st.lastTrackId =
      (.parseFailed, st.lastTrackId) := by
    rw [process_track_eq]
    simp [hd, ht, hne, hp]
  refine ⟨hpt, ?_⟩
  simp [mainStep, hpt]

/-- C9 (witness): the malformed "t1" response from a fresh loop state. -/
theorem c9_witness :
    process_track malformedData .requestError .requestError true none =
      (.parseFailed, none) ∧
    mainStep ⟨0, none⟩ (.normal malformedData .requestError .requestError true) =
      (⟨0, none⟩, false) :=
  c9_parse_failure_recoverable ⟨0, none⟩ malformedData malformedItem .requestError
    .requestError true (by decide) (by decide) (by decide) (by decide)

/-- Helper: a schedule of completed cycles never ends the loop fatally. -/
lemma completed_cycles_never_fatal (os : List CycleInput) :
    ∀ (st : LoopState), (∀ i ∈ os, ∃ d c s ok, i = .normal d c s ok) →
      (runLoop os st).2 = false := by
  induction os with
  | nil => intro st _; rfl
  | cons i rest ih =>
    intro st h
    obtain ⟨d, c, s, ok, hi⟩ := h i (List.mem_cons_self i rest)
    subst hi
    have hrest : ∀ j ∈ rest, ∃ d c s ok, j = .normal d c s ok :=
      fun j hj => h j (List.mem_cons_of_mem _ hj)
    simpa [runLoop, mainStep] using ih _ hrest

/-- C10: every cycle in which `process_track` runs — including one whose
webhook delivery fails — resets the consecutive-failure counter to 0 and does
not end the loop, and a schedule consisting only of completed cycles never
terminates the loop fatally. -/
theorem c10_completed_cycle_resets_retries :
    ∀ (st : LoopState) (data : Option NPData) (color : ColorFetch)
      (scrobble : ScrobbleFetch) (ok : Bool),
      (mainStep st (.normal data color scrobble ok)).1.retryCount = 0 ∧
      (mainStep st (.normal data color scrobble ok)).2 = false ∧
      ∀ (os : List CycleInput), (∀ i ∈ os, ∃ d c s dok, i = .normal d c s dok) →
        (runLoop os st).2 = false := by
  intro st data color scrobble ok
  exact ⟨rfl, rfl, fun os h => completed_cycles_never_fatal os st h⟩

/-- C10 (witness): two consecutive delivery-failing cycles for track "t1" from
counter 2 do not terminate the loop. -/
theorem c10_witness :
    (runLoop [.normal goodData .requestError .requestError false,
              .normal goodData .requestError .requestError false] ⟨2, none⟩).2 = false :=
  (c10_completed_cycle_resets_retries ⟨2, none⟩ goodData .requestError .requestError false).2.2
    [.normal goodData .requestError .requestError false,
     .normal goodData .requestError .requestError false]
    (by intro i hi
        rcases List.mem_cons.1 hi with h | h
        · exact ⟨_, _, _, _, h⟩
        · rw [List.mem_singleton] at h; exact ⟨_, _, _, _, h⟩)

/-- C4 (counterexample): from an empty credential state at time 0, a renewal
reporting a time-to-live of 300 seconds completes `ensure_valid_token` with a
stored expiry of 300, which is not strictly later than now plus the 300-second
safety buffer. -/
theorem c4_counterexample :
    (ensure_valid_token ⟨none, none⟩ 0 (("tok"), 300)).2 = 1 ∧
    (ensure_valid_token ⟨none, none⟩ 0 (("tok"), 300)).1.tokenExpiry = some 300 ∧
    ¬ ((0 : Int) + TOKEN_EXPIRY_BUFFER < 300) := by
  decide

/-- C3 (witness): a call at time 0 with a cached credential expiring at 1000
performs no renewal exchange. -/
theorem c3_witness :
    (ensure_valid_token ⟨some ("tok"), some 1000⟩ 0 (("new"), 3600)).2 = 0 :=
  (c3_renewal_iff_stale ⟨some ("tok"), some 1000⟩ 0 (("new"), 3600)).2
    ("tok") 1000 rfl rfl (by decide)

/-- C4 (witness): a call at time 0 that finds the cached credential fresh
returns it with an expiry strictly later than now plus the safety buffer. -/
theorem c4_witness :
    ∃ e, (ensure_valid_token ⟨some ("tok"), some 1000⟩ 0 (("new"), 3600)).1.tokenExpiry =
      some e ∧ (0 : Int) + TOKEN_EXPIRY_BUFFER < e :=
  (c4_expiry_buffer_amended ⟨some ("tok"), some 1000⟩ 0 (("new"), 3600)).1 (by decide)

end SpotifyWebhook
